import Mathlib

/-!
Verification of the offline durable queue and flush engine of
ParkRangerTools (`src/backend/src/utils/thumbnail.ts`, module
`offlineQueue`: `openDB`, `queueReport`, `flushQueue`).

The store is IndexedDB object store `reports` with
`{ keyPath: 'id', autoIncrement: true }`: keys are store-generated,
start at 1 and increase by 1 per insertion; `getAll` returns records in
ascending key order.  We embed the store as a record list together with
the key generator's next value.

Platform semantics embedded alongside the code (both are load-bearing
for the claims below):
* WHATWG `fetch` rejects its promise only on network failure; an HTTP
  response with any status (including 4xx/5xx) resolves the promise.
* An IndexedDB transaction is atomic: mutations made inside it are
  applied at commit, and an abort discards them all.
-/

namespace OfflineQueue

/-- A queued report record: the store-assigned `id` key and the opaque
report payload stored under the `data` field.  The engine never
interprets the payload, so we embed it as a `String`. -/
structure QueuedReport where
  id : Nat
  data : String
deriving Repr, DecidableEq

/-- The durable record store: the object store contents (in ascending
key order, as `getAll` yields them) together with the auto-increment
key generator's next key. -/
structure Store where
  nextId : Nat
  records : List QueuedReport
deriving Repr, DecidableEq

/-- The store created by `openDB`'s `onupgradeneeded`: empty contents,
key generator at 1. -/
def emptyStore : Store := ⟨1, []⟩

/-- Well-formedness maintained by the store for its lifetime: every
present key is below the generator's next key, and keys strictly
increase along the list (which gives both uniqueness and
insertion-order monotonicity). -/
def Store.WF (s : Store) : Prop :=
  (∀ r ∈ s.records, r.id < s.nextId) ∧
    s.records.Pairwise (fun a b => a.id < b.id)

/-- The `getAll` read on the store: the full contents in ascending key order. -/
def listAll (s : Store) : List QueuedReport := s.records

/-- The enqueue operation `queueReport(data)`: opens a readwrite transaction, performs
`add(\x7b data \x7d)` (the store assigns the key — the caller never
supplies one) and commits.  The new record receives the generator's
current next key and the generator advances. -/
def queueReport (data : String) (s : Store) : Store :=
  ⟨s.nextId + 1, s.records ++ [⟨s.nextId, data⟩]⟩

/-- Storage-layer failure surfaced by the enqueue path (`openDB`
rejecting, or `complete(tx)` rejecting on a failed write). -/
inductive StorageError where
  | storageUnavailable
deriving Repr, DecidableEq

/-- Environment for one `queueReport` call: whether `indexedDB.open`
succeeds and whether the write transaction commits. -/
structure StorageEnv where
  openOk : Bool
  writeOk : Bool
deriving Repr, DecidableEq

/-- The enqueue path as the caller observes it: `await openDB()` rejects
when storage cannot be opened, `await complete(tx)` rejects when the
write transaction fails (atomicity then discards the insert), and
otherwise the insert is committed and the promise resolves. -/
def queueReportE (env : StorageEnv) (data : String) (s : Store) :
    Except StorageError Store :=
  if env.openOk then
    if env.writeOk then .ok (queueReport data s)
    else .error .storageUnavailable
  else .error .storageUnavailable

/-- Outcome of one `fetch('/reports', ...)` call.  Per the fetch
standard the promise rejects only on network failure; an HTTP response
of any status resolves it. -/
inductive FetchOutcome where
  | reject
  | response (status : Nat)
deriving Repr, DecidableEq

/-- Transport behaviour for one flush pass: the outcome of sending each
record's payload. -/
def Transport := QueuedReport → FetchOutcome

/-- Delivery success in the sense of the specification: the collector
acknowledged receipt, i.e. an HTTP 2xx response. -/
def deliverySucceeded (o : FetchOutcome) : Bool :=
  match o with
  | .reject => false
  | .response st => decide (200 ≤ st ∧ st < 300)

/-- Whether the fetch for this record rejects, i.e. is a network
failure.  This — not delivery failure in the specification's sense — is
what the source's `catch` observes. -/
def fetchRejected (t : Transport) (r : QueuedReport) : Bool :=
  match t r with
  | .reject => true
  | .response _ => false

/-- One `await fetch(...)` inside the flush loop as an exception-throwing
step: a network failure throws, a response of any status returns it. -/
def sendReport (t : Transport) (r : QueuedReport) : Except Unit Nat :=
  match t r with
  | .reject => .error ()
  | .response st => .ok st

/-- The pending mutation set of the pass's readwrite transaction:
`store.delete(id)` calls buffered until commit. -/
structure Tx where
  pendingDeletes : List Nat
deriving Repr, DecidableEq

/-- One `store.delete(item.id)` call inside the transaction. -/
def txDelete (tx : Tx) (i : Nat) : Tx := ⟨tx.pendingDeletes ++ [i]⟩

/-- Committing the transaction applies every buffered delete to the
store's current contents. -/
def commitTx (s : Store) (tx : Tx) : Store :=
  ⟨s.nextId, s.records.filter (fun r => decide (r.id ∉ tx.pendingDeletes))⟩

/-- Aborting the transaction discards every buffered mutation
(IndexedDB transactions are atomic), leaving the store as it was. -/
def abortTx (s : Store) (_tx : Tx) : Store := s

/-- One iteration of the flush loop:
`try \x7b await fetch(...); store.delete(item.id) \x7d catch \x7b /* keep */ \x7d`.
The `match` is the `try`/`catch`: a thrown fetch is absorbed and the
record kept, a resolved fetch is followed by the delete. -/
def flushStep (t : Transport) (tx : Tx) (r : QueuedReport) : Tx :=
  match sendReport t r with
  | .ok _ => txDelete tx r.id
  | .error _ => tx

/-- The whole flush loop over the items read by `getAll`, threading the
transaction.  Every throw source inside the loop sits in the `try`, so
the loop itself cannot throw. -/
def flushLoop (t : Transport) (items : List QueuedReport) (tx : Tx) : Tx :=
  items.foldl (flushStep t) tx

/-- What one flush pass produces: the store after commit, and the list
of payloads handed to the transport, in the order they were sent. -/
structure FlushResult where
  store : Store
  sends : List String
deriving Repr, DecidableEq

/-- The body of `flushQueue` once `getAll` has yielded `items` against
store contents `base`: run the loop, commit, close.  The `Except` layer
mirrors the async function's promise: `.ok` is resolution, `.error`
would be rejection — and no uncaught throw site remains, so the body
always resolves. -/
def flushBody (t : Transport) (items : List QueuedReport) (base : Store) :
    Except String FlushResult :=
  .ok ⟨commitTx base (flushLoop t items ⟨[]⟩), items.map (·.data)⟩

/-- The flush pass `flushQueue()`: read all records in one readwrite transaction, send
each, delete the delivered ones, commit. -/
def flushQueue (t : Transport) (s : Store) : Except String FlushResult :=
  flushBody t s.records s

/-- Outcome of the `store.getAll()` request inside `flushQueue`. -/
inductive ReadOutcome where
  | ok (items : List QueuedReport)
  | err (e : String)
deriving Repr, DecidableEq

/-- The promise wrapped around `getAll` in the source registers only
`req.onsuccess`; no handler observes an errored request, so the promise
settles exactly on a successful read. -/
def getAllPromise (ro : ReadOutcome) : Option (List QueuedReport) :=
  match ro with
  | .ok items => some items
  | .err _ => none

/-- The flush pass as a function of the read request's outcome: if the
`getAll` promise never settles, the `await` never resumes and the
returned promise never settles (`none`); otherwise the body runs. -/
def flushQueueFromRead (t : Transport) (ro : ReadOutcome) (s : Store) :
    Option (Except String FlushResult) :=
  (getAllPromise ro).map (fun items => flushBody t items s)

/-- A flush pass whose bounding transaction aborts after the first `k`
records have been processed: the loop's buffered deletes are discarded
by the abort, and `await complete(tx)` rejects, so the pass's promise
rejects.  Returns the store after the abort and the pass outcome. -/
def flushQueueAborted (t : Transport) (k : Nat) (s : Store) :
    Store × Except String FlushResult :=
  (abortTx s (flushLoop t (s.records.take k) ⟨[]⟩),
    .error "TransactionAborted")

/-- A flush pass interleaved with a concurrent `queueReport data`: the
pass takes its `getAll` snapshot first, the enqueue commits in its own
transaction before the pass commits, and the pass's deletes then apply
to the store that already holds the new record. -/
def flushWithConcurrentEnqueue (t : Transport) (data : String) (s : Store) :
    Except String FlushResult :=
  flushBody t s.records (queueReport data s)

/-! ### Lemmas about the flush loop and the store invariant -/

lemma flushStep_eq (t : Transport) (tx : Tx) (r : QueuedReport) :
    flushStep t tx r = if fetchRejected t r then tx else txDelete tx r.id := by
  unfold flushStep sendReport fetchRejected
  cases t r <;> rfl

lemma flushLoop_pending (t : Transport) (items : List QueuedReport) (tx : Tx) :
    (flushLoop t items tx).pendingDeletes =
      tx.pendingDeletes ++
        ((items.filter (fun r => !(fetchRejected t r))).map (·.id)) := by
  induction items generalizing tx with
  | nil => simp [flushLoop]
  | cons r rest ih =>
    have hstep : flushLoop t (r :: rest) tx = flushLoop t rest (flushStep t tx r) := rfl
    rw [hstep, ih, flushStep_eq]
    cases h : fetchRejected t r <;>
      simp [txDelete, h, List.filter_cons]

lemma eq_of_id_eq {l : List QueuedReport}
    (h : l.Pairwise (fun a b => a.id < b.id)) :
    ∀ a ∈ l, ∀ b ∈ l, a.id = b.id → a = b := by
  intro a ha b hb hab
  by_contra hne
  have hp : l.Pairwise (fun a b => a.id ≠ b.id) :=
    h.imp (fun hlt => Nat.ne_of_lt hlt)
  have hsymm : Symmetric (fun a b : QueuedReport => a.id ≠ b.id) := by
    intro x y hxy
    exact hxy.symm
  exact hp.forall hsymm ha hb hne hab

lemma id_mem_map_filter_iff {l : List QueuedReport}
    (hp : l.Pairwise (fun a b => a.id < b.id)) (q : QueuedReport → Bool)
    {r : QueuedReport} (hr : r ∈ l) :
    r.id ∈ (l.filter q).map (·.id) ↔ q r = true := by
  constructor
  · intro hmem
    obtain ⟨a, ha, hid⟩ := List.mem_map.1 hmem
    obtain ⟨ha_mem, hqa⟩ := List.mem_filter.1 ha
    have : a = r := eq_of_id_eq hp a ha_mem r hr hid
    rwa [this] at hqa
  · intro hq
    exact List.mem_map.2 ⟨r, List.mem_filter.2 ⟨hr, hq⟩, rfl⟩

lemma commitTx_flushLoop (s : Store) (hWF : s.WF) (t : Transport) :
    commitTx s (flushLoop t s.records ⟨[]⟩) =
      ⟨s.nextId, s.records.filter (fun r => fetchRejected t r)⟩ := by
  unfold commitTx
  congr 1
  rw [flushLoop_pending]
  simp only [List.nil_append]
  apply List.filter_congr
  intro r hr
  have hiff := id_mem_map_filter_iff hWF.2 (fun r => !(fetchRejected t r)) hr
  cases h : fetchRejected t r
  · have hmem : r.id ∈ (s.records.filter (fun r => !(fetchRejected t r))).map (·.id) :=
      hiff.2 (by simp [h])
    simp [hmem, h]
  · have hnmem : r.id ∉ (s.records.filter (fun r => !(fetchRejected t r))).map (·.id) := by
      intro hmem
      have := hiff.1 hmem
      simp [h] at this
    simp [hnmem, h]

/-- Characterization of one flush pass on a well-formed store: the
records whose fetch rejected remain (a filter, hence in their original
relative order), the rest are deleted, and every record's payload was
sent exactly once, in store order. -/
lemma flushQueue_eq (t : Transport) (s : Store) (hWF : s.WF) :
    flushQueue t s =
      .ok ⟨⟨s.nextId, s.records.filter (fun r => fetchRejected t r)⟩,
        s.records.map (·.data)⟩ := by
  unfold flushQueue flushBody
  rw [commitTx_flushLoop s hWF]

lemma flushQueue_of_records_nil (t : Transport) (s : Store)
    (h : s.records = []) : flushQueue t s = .ok ⟨s, []⟩ := by
  obtain ⟨n, recs⟩ := s
  simp only at h
  subst h
  rfl

lemma WF_emptyStore : emptyStore.WF := by
  constructor <;> simp [emptyStore]

lemma WF_queueReport (data : String) (s : Store) (h : s.WF) :
    (queueReport data s).WF := by
  obtain ⟨h1, h2⟩ := h
  constructor
  · intro r hr
    rcases List.mem_append.1 hr with hmem | hmem
    · exact Nat.lt_succ_of_lt (h1 r hmem)
    · simp only [List.mem_singleton] at hmem
      subst hmem
      exact Nat.lt_succ_self _
  · refine List.pairwise_append.2 ⟨h2, List.pairwise_singleton _ _, ?_⟩
    intro a ha b hb
    simp only [List.mem_singleton] at hb
    subst hb
    exact h1 a ha

lemma WF_filter (s : Store) (q : QueuedReport → Bool) (h : s.WF) :
    (Store.mk s.nextId (s.records.filter q)).WF := by
  obtain ⟨h1, h2⟩ := h
  exact ⟨fun r hr => h1 r (List.mem_filter.1 hr).1,
    h2.sublist (List.filter_sublist _)⟩

lemma delivery_success_not_rejected (t : Transport) (r : QueuedReport)
    (h : deliverySucceeded (t r) = true) : fetchRejected t r = false := by
  unfold fetchRejected
  cases ho : t r with
  | reject =>
    rw [ho] at h
    simp [deliverySucceeded] at h
  | response st => rfl

lemma flushQueue_all_success (t : Transport) (s : Store) (hWF : s.WF)
    (hsucc : ∀ r ∈ s.records, deliverySucceeded (t r) = true) :
    flushQueue t s = .ok ⟨⟨s.nextId, []⟩, s.records.map (·.data)⟩ := by
  rw [flushQueue_eq t s hWF]
  have hnil : s.records.filter (fun r => fetchRejected t r) = [] := by
    rw [List.filter_eq_nil_iff]
    intro r hr
    simp [delivery_success_not_rejected t r (hsucc r hr)]
  rw [hnil]

/-! ### Claim theorems -/

/-- The transport behaviour exhibiting the C1 divergence: the collector
answers HTTP 500 to every delivery. -/
def tNon2xx : Transport := fun _ => .response 500

/-- C1 (code behaviour at the failing input): with one queued record and
a collector answering HTTP 500, delivery did not succeed in the
specification's sense, yet the flush pass deletes the record — `fetch`
resolves on a non-2xx response and the source never checks the status,
so the record is removed without a confirmed delivery. -/
theorem c1_non_success_response_still_deletes :
    deliverySucceeded (tNon2xx ⟨1, "p"⟩) = false ∧
    flushQueue tNon2xx ⟨2, [⟨1, "p"⟩]⟩ = .ok ⟨⟨2, []⟩, ["p"]⟩ :=
  ⟨rfl, rfl⟩

/-- C2: `flushQueue` settles successfully (never rejects) for every
store state and transport behaviour — each record's fetch rejection is
absorbed by the per-item `try`/`catch` — and on an empty store it is a
no-op: the store is unchanged and the transport is invoked zero
times. -/
theorem c2_flush_never_throws_and_empty_noop (t : Transport) (s : Store) :
    (∃ res, flushQueue t s = Except.ok res) ∧
    (s.records = [] → flushQueue t s = .ok ⟨s, []⟩) :=
  ⟨⟨_, rfl⟩, fun h => flushQueue_of_records_nil t s h⟩

/-- Witness for C2 at a concrete input: an always-rejecting transport on
the empty store. -/
theorem c2_witness :
    flushQueue (fun _ => .reject) emptyStore = .ok ⟨emptyStore, []⟩ :=
  (c2_flush_never_throws_and_empty_noop (fun _ => .reject) emptyStore).2 rfl

/-- C3: when the transport succeeds (2xx) for every queued record, one
flush pass empties the store and the transport was invoked exactly once
per record, with that record's payload, in store order. -/
theorem c3_all_success_drains_store (t : Transport) (s : Store)
    (hWF : s.WF)
    (hsucc : ∀ r ∈ s.records, deliverySucceeded (t r) = true) :
    flushQueue t s = .ok ⟨⟨s.nextId, []⟩, s.records.map (·.data)⟩ :=
  flushQueue_all_success t s hWF hsucc

/-- Witness for C3 at a concrete input: one queued record, collector
answers HTTP 200. -/
theorem c3_witness :
    flushQueue (fun _ => .response 200) ⟨2, [⟨1, "a"⟩]⟩ =
      .ok ⟨⟨2, []⟩, ["a"]⟩ :=
  c3_all_success_drains_store (fun _ => .response 200) ⟨2, [⟨1, "a"⟩]⟩
    ⟨by decide, by decide⟩ (by decide)

/-- The transport for the C4 counterexample: record 1 receives HTTP 500
(a transport failure in the claim's sense), record 2 receives HTTP
200. -/
def tC4 : Transport := fun r => if r.id = 1 then .response 500 else .response 200

/-- The two-record store for the C4 counterexample. -/
def sC4 : Store := ⟨3, [⟨1, "a"⟩, ⟨2, "b"⟩]⟩

/-- C4 counterexample: with records 1 and 2 queued and the transport
failing (HTTP 500) exactly on the strict subset S = \x7brecord 1\x7d, the
claim says exactly record 1 remains after the pass — but the code
deletes both records (the non-2xx response resolves the fetch), leaving
the store empty. -/
theorem c4_counterexample :
    deliverySucceeded (tC4 ⟨1, "a"⟩) = false ∧
    deliverySucceeded (tC4 ⟨2, "b"⟩) = true ∧
    flushQueue tC4 sC4 = .ok ⟨⟨3, []⟩, ["a", "b"]⟩ ∧
    ([] : List QueuedReport) ≠ [⟨1, "a"⟩] :=
  ⟨by decide, by decide, rfl, by decide⟩

/-- C4 amended: with failure read as the fetch rejecting (network
error), after one flush pass exactly the records whose fetch rejected
remain, as a filter of the original list — hence a sublist, in their
original relative order — and every record's payload was attempted (one
send per record, no head-of-line blocking). -/
theorem c4_amended_rejected_subset_remains (t : Transport) (s : Store)
    (hWF : s.WF) :
    flushQueue t s =
      .ok ⟨⟨s.nextId, s.records.filter (fun r => fetchRejected t r)⟩,
        s.records.map (·.data)⟩ ∧
    List.Sublist (s.records.filter (fun r => fetchRejected t r)) s.records :=
  ⟨flushQueue_eq t s hWF, List.filter_sublist _⟩

/-- Witness for C4 (amended) at a concrete input: record 1's fetch
rejects, record 2 is delivered; exactly record 1 remains and both
payloads were sent. -/
theorem c4_amended_witness :
    flushQueue (fun r => if r.id = 1 then FetchOutcome.reject else .response 200)
        ⟨3, [⟨1, "a"⟩, ⟨2, "b"⟩]⟩ =
      .ok ⟨⟨3, [⟨1, "a"⟩]⟩, ["a", "b"]⟩ := by
  have h := c4_amended_rejected_subset_remains
    (fun r => if r.id = 1 then FetchOutcome.reject else .response 200)
    ⟨3, [⟨1, "a"⟩, ⟨2, "b"⟩]⟩ ⟨by decide, by decide⟩
  rw [h.1]
  rfl

/-- C5: an enqueue inserts a record carrying exactly the given payload
whose id is the store-assigned `nextId`, strictly greater than every id
already in the store; well-formedness (id uniqueness and ascending
insertion order) is preserved by enqueue and by every flush pass, so it
holds for the lifetime of the store.  The id is never supplied by the
caller: `queueReport` takes only the payload. -/
theorem c5_enqueue_fresh_monotonic_id (s : Store) (data : String)
    (hWF : s.WF) :
    ((⟨s.nextId, data⟩ : QueuedReport) ∈ listAll (queueReport data s)) ∧
    (∀ old ∈ s.records, old.id < s.nextId) ∧
    (queueReport data s).WF ∧
    (∀ (t : Transport) (res : FlushResult),
      flushQueue t s = .ok res → res.store.WF) := by
  refine ⟨?_, hWF.1, WF_queueReport data s hWF, ?_⟩
  · simp [listAll, queueReport]
  · intro t res h
    rw [flushQueue_eq t s hWF] at h
    cases h
    exact WF_filter s _ hWF

/-- Witness for C5 at a concrete input: enqueue onto the fresh store. -/
theorem c5_witness :
    (⟨1, "p"⟩ : QueuedReport) ∈ listAll (queueReport "p" emptyStore) :=
  (c5_enqueue_fresh_monotonic_id emptyStore "p" WF_emptyStore).1

/-- C6: after a flush pass in which every delivery succeeded, a second
flush pass with no intervening enqueue finds the store empty, performs
zero transport invocations and leaves the store unchanged — drained
records are never resent. -/
theorem c6_second_flush_zero_sends (t₁ t₂ : Transport) (s : Store)
    (hWF : s.WF)
    (hsucc : ∀ r ∈ s.records, deliverySucceeded (t₁ r) = true) :
    ∃ res₁, flushQueue t₁ s = .ok res₁ ∧
      res₁.store.records = [] ∧
      flushQueue t₂ res₁.store = .ok ⟨res₁.store, []⟩ := by
  refine ⟨⟨⟨s.nextId, []⟩, s.records.map (·.data)⟩, ?_, rfl, ?_⟩
  · exact flushQueue_all_success t₁ s hWF hsucc
  · exact flushQueue_of_records_nil t₂ _ rfl

/-- Witness for C6 at a concrete input: one record delivered with HTTP
201 on the first pass; the second pass (whatever its transport would do)
sends nothing. -/
theorem c6_witness :
    ∃ res₁, flushQueue (fun _ => .response 201) ⟨2, [⟨1, "a"⟩]⟩ = .ok res₁ ∧
      res₁.store.records = [] ∧
      flushQueue (fun _ => .response 500) res₁.store = .ok ⟨res₁.store, []⟩ :=
  c6_second_flush_zero_sends (fun _ => .response 201) (fun _ => .response 500)
    ⟨2, [⟨1, "a"⟩]⟩ ⟨by decide, by decide⟩ (by decide)

/-- C7: the enqueue path surfaces an error to the caller exactly when
the storage cannot be opened or the write transaction fails, the only
error it surfaces is `StorageUnavailable`, and when storage opens and
the write commits it returns the store with the record inserted and no
error. -/
theorem c7_enqueue_error_iff_storage (env : StorageEnv) (data : String)
    (s : Store) :
    ((queueReportE env data s = .error .storageUnavailable) ↔
      (env.openOk = false ∨ env.writeOk = false)) ∧
    (env.openOk = true → env.writeOk = true →
      queueReportE env data s = .ok (queueReport data s)) ∧
    (∀ e, queueReportE env data s = .error e → e = .storageUnavailable) := by
  obtain ⟨o, w⟩ := env
  refine ⟨?_, ?_, ?_⟩
  · cases o <;> cases w <;> simp [queueReportE]
  · intro ho hw
    simp only at ho hw
    subst ho
    subst hw
    rfl
  · intro e _
    cases e
    rfl

/-- Witness for C7 at a concrete input: storage opens and the write
commits, so the enqueue returns without error. -/
theorem c7_witness :
    queueReportE ⟨true, true⟩ "p" emptyStore = .ok (queueReport "p" emptyStore) :=
  (c7_enqueue_error_iff_storage ⟨true, true⟩ "p" emptyStore).2.1 rfl rfl

/-- The transport for the C8 counterexample: every delivery succeeds
with HTTP 200. -/
def tC8 : Transport := fun _ => .response 200

/-- The two-record store for the C8 counterexample. -/
def sC8 : Store := ⟨3, [⟨1, "a"⟩, ⟨2, "b"⟩]⟩

/-- C8 counterexample: record 1 is delivered and its delete is buffered
in the pass's single transaction (its id is among the pending deletes
after one iteration); the transaction then aborts — and record 1 is back
in the store, because IndexedDB rolls back every mutation of an aborted
transaction.  The claim's "already-deleted records stay deleted" fails
on the code: the pass has no per-delete commit. -/
theorem c8_counterexample :
    (flushLoop tC8 (sC8.records.take 1) ⟨[]⟩).pendingDeletes = [1] ∧
    (flushQueueAborted tC8 1 sC8).1 = sC8 ∧
    ((⟨1, "a"⟩ : QueuedReport) ∈ (flushQueueAborted tC8 1 sC8).1.records) :=
  ⟨rfl, rfl, by decide⟩

/-- C8 amended: when the pass's bounding transaction aborts mid-pass,
the pass is not considered complete (its promise rejects), every record
not yet processed remains queued, and the deletes buffered earlier in
the pass are rolled back with the rest of the transaction, so
already-delivered records reappear and may be redelivered later
(at-least-once delivery); no record is lost. -/
theorem c8_amended_abort_rolls_back_pass (t : Transport) (k : Nat)
    (s : Store) :
    (flushQueueAborted t k s).1 = s ∧
    (∀ r ∈ s.records.drop k, r ∈ (flushQueueAborted t k s).1.records) ∧
    (flushQueueAborted t k s).2 = .error "TransactionAborted" :=
  ⟨rfl, fun _ hr => List.drop_subset _ _ hr, rfl⟩

/-- Witness for C8 (amended) at a concrete input: abort after one
processed record leaves the two-record store exactly as it was. -/
theorem c8_amended_witness :
    (flushQueueAborted (fun _ => .response 200) 1 ⟨3, [⟨1, "x"⟩, ⟨2, "y"⟩]⟩).1 =
      ⟨3, [⟨1, "x"⟩, ⟨2, "y"⟩]⟩ :=
  (c8_amended_abort_rolls_back_pass (fun _ => .response 200) 1
    ⟨3, [⟨1, "x"⟩, ⟨2, "y"⟩]⟩).1

/-- C9: when an enqueue commits after the flush pass has taken its
`getAll` snapshot but before the pass commits, the pass settles
successfully, the newly enqueued record is present in the store after
the pass (it is not lost), and the pass sent exactly the snapshot's
payloads — the new record was not delivered by that pass. -/
theorem c9_enqueue_during_flush_survives (t : Transport) (data : String)
    (s : Store) (hWF : s.WF) :
    ∃ res, flushWithConcurrentEnqueue t data s = .ok res ∧
      ((⟨s.nextId, data⟩ : QueuedReport) ∈ res.store.records) ∧
      res.sends = s.records.map (·.data) := by
  refine ⟨_, rfl, ?_, rfl⟩
  show (⟨s.nextId, data⟩ : QueuedReport) ∈
    (commitTx (queueReport data s) (flushLoop t s.records ⟨[]⟩)).records
  unfold commitTx
  apply List.mem_filter.2
  refine ⟨by simp [queueReport], ?_⟩
  rw [flushLoop_pending]
  simp only [List.nil_append, decide_eq_true_eq]
  intro hmem
  obtain ⟨a, ha, hid⟩ := List.mem_map.1 hmem
  have ha' := (List.mem_filter.1 ha).1
  have hlt := hWF.1 a ha'
  have hid' : a.id = s.nextId := hid
  omega

/-- Witness for C9 at a concrete input: an enqueue racing a flush over a
one-record store; the new record survives and only the snapshot payload
was sent. -/
theorem c9_witness :
    ∃ res,
      flushWithConcurrentEnqueue (fun _ => .response 200) "q" ⟨2, [⟨1, "a"⟩]⟩ =
        .ok res ∧
      ((⟨2, "q"⟩ : QueuedReport) ∈ res.store.records) ∧
      res.sends = ["a"] :=
  c9_enqueue_during_flush_survives (fun _ => .response 200) "q"
    ⟨2, [⟨1, "a"⟩]⟩ ⟨by decide, by decide⟩

/-- C10: the promise `flushQueue` returns settles exactly when the
`getAll` read succeeds — the source registers only the read's
`onsuccess` callback, so an errored read leaves the promise forever
pending (`none`), while a successful read always leads to a resolved
pass. -/
theorem c10_settles_iff_read_succeeds (t : Transport) (ro : ReadOutcome)
    (s : Store) :
    ((flushQueueFromRead t ro s).isSome ↔ ∃ items, ro = .ok items) ∧
    (∀ e, flushQueueFromRead t (.err e) s = none) ∧
    (∀ items, ∃ res, flushQueueFromRead t (.ok items) s = some (.ok res)) := by
  refine ⟨?_, fun e => rfl, fun items => ⟨_, rfl⟩⟩
  cases ro with
  | ok items => exact ⟨fun _ => ⟨items, rfl⟩, fun _ => rfl⟩
  | err e =>
    constructor
    · intro h
      exact absurd h Bool.false_ne_true
    · rintro ⟨items, h⟩
      cases h

end OfflineQueue
